import Mathlib

/-!
Verification of the mispesos-app interpretation pipeline.

Shallow embedding of `backend/app/services/ai_service.py`,
`backend/app/services/metrics_service.py` and
`backend/app/services/ocr_queue.py`.  Python floats are modelled as `ℚ`
(the code performs no float-specific rounding), Python `None` as `Option`,
Python dicts holding the response cache as insertion-ordered association
lists, and Python exceptions as `Except`.  Wall-clock time is passed in
explicitly as a rational number of seconds.
-/

namespace MisPesos

/-- Python truthiness of an optional numeric value (`None` and `0.0` are
falsy, every other float is truthy).  Used wherever the source tests a
possibly-`None` amount with `if amount:` / `.get('amount')`. -/
def numTruthy : Option ℚ → Bool
  | some a => a != 0
  | none => false

/-- `amount is not None and amount > 0`, the `success` computation of
`AIParsingResult.__init__`. -/
def posAmount : Option ℚ → Bool
  | some a => decide (0 < a)
  | none => false

/-- The `parsed_data` dictionary produced by `_validate_and_normalize`,
`_create_error_result` and `_fallback_regex_parsing`. -/
structure RawData where
  amount : Option ℚ
  description : String
  category : String
  payment_method : String
  location : Option String
  date_offset : ℤ
  confidence : ℚ
  raw_response : String
deriving DecidableEq, Repr

/-- `AIParsingResult`: the fields of the data dictionary plus the derived
`success` flag. -/
structure AIParsingResult where
  amount : Option ℚ
  description : String
  category : String
  payment_method : String
  location : Option String
  confidence : ℚ
  date_offset : ℤ
  raw_response : String
  success : Bool
deriving DecidableEq, Repr

/-- `AIParsingResult.__init__`, reading the fields out of the data
dictionary and computing `success = amount is not None and amount > 0`. -/
def AIParsingResult.ofData (d : RawData) : AIParsingResult :=
  { amount := d.amount
    description := d.description
    category := d.category
    payment_method := d.payment_method
    location := d.location
    confidence := d.confidence
    date_offset := d.date_offset
    raw_response := d.raw_response
    success := posAmount d.amount }

/-! ## Character-level helpers for the regex patterns of
`_extract_amount_regex` (`re.search` over the lower-cased message). -/

/-- Maximal leading run of decimal digits (the greedy `\d+` / `\d{4,}`). -/
def digitSpan : List Char → List Char × List Char
  | [] => ([], [])
  | c :: cs =>
    if c.isDigit then
      let p := digitSpan cs
      (c :: p.1, p.2)
    else ([], c :: cs)

/-- Skip a maximal run of whitespace (the greedy `\s*`). -/
def wsSkip : List Char → List Char
  | [] => []
  | c :: cs => if c.isWhitespace then wsSkip cs else c :: cs

/-- Match the capturing group `(\d+(?:\.\d+)?)` at the head of the input:
a digit run optionally followed by a dot and another digit run.  Returns
the captured characters and the rest of the input. -/
def numGroup (s : List Char) : Option (List Char × List Char) :=
  let p := digitSpan s
  if p.1.isEmpty then none
  else
    match p.2 with
    | '.' :: rest2 =>
      let q := digitSpan rest2
      if q.1.isEmpty then some (p.1, p.2) else some (p.1 ++ '.' :: q.1, q.2)
    | _ => some (p.1, p.2)

/-- Pattern `(\d+(?:\.\d+)?)\s*k(?:\s|$)` anchored at the head of the
input ("50k", "50.5k"). -/
def matchK (s : List Char) : Option (List Char) :=
  match numGroup s with
  | none => none
  | some (g, rest) =>
    match wsSkip rest with
    | 'k' :: rest2 =>
      match rest2 with
      | [] => some g
      | c :: _ => if c.isWhitespace then some g else none
    | _ => none

/-- Pattern `(\d+(?:\.\d+)?)\s*mil(?:\s|$)` anchored at the head of the
input ("50mil"). -/
def matchMil (s : List Char) : Option (List Char) :=
  match numGroup s with
  | none => none
  | some (g, rest) =>
    match wsSkip rest with
    | 'm' :: 'i' :: 'l' :: rest2 =>
      match rest2 with
      | [] => some g
      | c :: _ => if c.isWhitespace then some g else none
    | _ => none

/-- Pattern `(\d{4,})` anchored at the head of the input: a run of at
least four digits. -/
def matchDigits4 (s : List Char) : Option (List Char) :=
  let p := digitSpan s
  if 4 ≤ p.1.length then some p.1 else none

/-- Pattern `(\d+(?:\.\d+)?)\s*(?:mil|k)` anchored at the head of the
input (the generic combinator; no trailing boundary required). -/
def matchMilK (s : List Char) : Option (List Char) :=
  match numGroup s with
  | none => none
  | some (g, rest) =>
    match wsSkip rest with
    | 'm' :: 'i' :: 'l' :: _ => some g
    | 'k' :: _ => some g
    | _ => none

/-- `re.search`: try the anchored pattern at every position, leftmost
match wins. -/
def reSearch (pat : List Char → Option (List Char)) : List Char → Option (List Char)
  | [] => pat []
  | c :: cs =>
    match pat (c :: cs) with
    | some g => some g
    | none => reSearch pat cs

/-- Numeric value of a run of decimal digits. -/
def digitsVal (ds : List Char) : ℕ :=
  ds.foldl (fun acc c => 10 * acc + (c.toNat - 48)) 0

/-- `float(group)` for a captured group of shape `digits` or
`digits.digits`. -/
def groupVal (g : List Char) : ℚ :=
  let intPart := g.takeWhile (fun c => c != '.')
  let frac := (g.dropWhile (fun c => c != '.')).drop 1
  (digitsVal intPart : ℚ) + (digitsVal frac : ℚ) / ((10 ^ frac.length : ℕ) : ℚ)

/-- `message.lower()` as a character list (ASCII case folding, which is
what the Spanish-language inputs of this service exercise). -/
def lowerChars (m : String) : List Char := m.toList.map Char.toLower

/-- `AIService._extract_amount_regex`: try the four patterns in order on
the lower-cased message; the first match wins; patterns 1, 2 and 4
multiply the captured number by 1000 (their pattern strings contain `k`
or `mil`), pattern 3 returns it unscaled.  The captured group of every
pattern is always a well-formed number, so the `ValueError` branch of the
source is unreachable. -/
def extract_amount_regex (message : String) : Option ℚ :=
  let m := lowerChars message
  match reSearch matchK m with
  | some g => some (groupVal g * 1000)
  | none =>
    match reSearch matchMil m with
    | some g => some (groupVal g * 1000)
    | none =>
      match reSearch matchDigits4 m with
      | some g => some (groupVal g)
      | none =>
        match reSearch matchMilK m with
        | some g => some (groupVal g * 1000)
        | none => none

/-- Substring test, Python's `word in message`. -/
def containsSub (needle : List Char) : List Char → Bool
  | [] => needle.isEmpty
  | c :: cs => List.isPrefixOf needle (c :: cs) || containsSub needle cs

/-- The keyword table of `_detect_category_regex`, in dict insertion
order. -/
def categoryKeywords : List (String × List String) :=
  [("alimentacion", ["almuerzo", "desayuno", "cena", "comida", "restaurante", "pizza", "hamburgues"]),
   ("transporte", ["uber", "taxi", "bus", "transmilenio", "gasolina"]),
   ("servicios", ["internet", "telefono", "luz", "agua", "netflix", "spotify"]),
   ("entretenimiento", ["cine", "bar", "discoteca", "concierto"])]

/-- First category whose keyword list has a word contained in the
message. -/
def findCategory (ml : List Char) : List (String × List String) → Option String
  | [] => none
  | (cat, words) :: rest =>
    if words.any (fun w => containsSub w.toList ml) then some cat
    else findCategory ml rest

/-- `AIService._detect_category_regex`. -/
def detect_category_regex (message : String) : String :=
  (findCategory (lowerChars message) categoryKeywords).getD "otros"

/-- `AIService._detect_payment_method_regex`. -/
def detect_payment_method_regex (message : String) : String :=
  let ml := lowerChars message
  if containsSub "tarjeta".toList ml || containsSub "card".toList ml then "tarjeta"
  else if containsSub "efectivo".toList ml || containsSub "cash".toList ml then "efectivo"
  else if containsSub "transferencia".toList ml || containsSub "transfer".toList ml then "transferencia"
  else if containsSub "debito".toList ml then "debito"
  else "tarjeta"

/-- `message[:100]`. -/
def take100 (message : String) : String := String.mk (message.toList.take 100)

/-- The data dictionary built by `AIService._fallback_regex_parsing`:
regex amount extraction, keyword category and payment detection,
`date_offset` fixed to 0, no location, confidence `0.6 if amount else
0.2` (Python truthiness: an extracted amount of 0 is falsy). -/
def fallbackData (message : String) : RawData :=
  { amount := extract_amount_regex message
    description := take100 message
    category := detect_category_regex message
    payment_method := detect_payment_method_regex message
    location := none
    date_offset := 0
    confidence := if numTruthy (extract_amount_regex message) then 0.6 else 0.2
    raw_response := "fallback_regex" }

/-- The `AIParsingResult` built from that dictionary. -/
def fallback_regex_parsing (message : String) : AIParsingResult :=
  AIParsingResult.ofData (fallbackData message)

/-! ## `_validate_and_normalize` and `_parse_ai_response` -/

/-- The JSON object extracted from an inference response, with each field
already classified: `none` models a field that is absent or whose JSON
value fails the corresponding `isinstance` check in the source (for
`amount`, anything that is not an int/float; Python booleans count as
ints, so a JSON `true` amount is modelled as `some 1`). -/
structure RawJson where
  amount : Option ℚ
  description : Option String
  category : Option String
  payment_method : Option String
  location : Option String
  date_offset : Option ℤ
  confidence : Option ℚ
deriving DecidableEq, Repr

/-- `min(max(x, 0.0), 1.0)`. -/
def clamp01 (x : ℚ) : ℚ := min (max x 0) 1

/-- `max(x - p, 0.0)`: a confidence penalty that floors at 0. -/
def floorPenalty (x p : ℚ) : ℚ := max (x - p) 0

/-- The `valid_categories` list of `_validate_and_normalize`. -/
def valid_categories : List String :=
  ["alimentacion", "transporte", "servicios", "entretenimiento",
   "salud", "ropa", "educacion", "casa", "otros"]

/-- The `valid_methods` list of `_validate_and_normalize`. -/
def valid_methods : List String := ["tarjeta", "efectivo", "transferencia", "debito"]

/-- `s.lower()` (ASCII case folding). -/
def lowerStr (s : String) : String := String.mk (lowerChars s)

/-- `s.strip()`: remove leading and trailing whitespace. -/
def stripChars (l : List Char) : List Char :=
  ((l.dropWhile Char.isWhitespace).reverse.dropWhile Char.isWhitespace).reverse

/-- `AIService._validate_and_normalize`: clamp confidence to [0,1]; an
amount that is not a positive number becomes `None` at a -0.3 confidence
penalty; empty description falls back to the first 100 characters of the
original message, otherwise it is capped at 500 characters; a category
outside `valid_categories` becomes "otros" at -0.2; a payment method
outside `valid_methods` becomes "tarjeta" at -0.1; every penalty floors
at 0.  Penalties are applied in this order to the running confidence. -/
def validate_and_normalize (data : RawJson) (original_message ai_response : String) : RawData :=
  let conf0 := clamp01 (data.confidence.getD 0)
  let amount := match data.amount with
    | some a => if 0 < a then some a else none
    | none => none
  let conf1 := if posAmount data.amount then conf0 else floorPenalty conf0 0.3
  let desc := String.mk (stripChars (data.description.getD "").toList)
  let description := if desc = "" then take100 original_message
    else String.mk (desc.toList.take 500)
  let cat := lowerStr (data.category.getD "")
  let category := if cat ∈ valid_categories then cat else "otros"
  let conf2 := if cat ∈ valid_categories then conf1 else floorPenalty conf1 0.2
  let pm := lowerStr (data.payment_method.getD "")
  let payment_method := if pm ∈ valid_methods then pm else "tarjeta"
  let conf3 := if pm ∈ valid_methods then conf2 else floorPenalty conf2 0.1
  { amount := amount
    description := description
    category := category
    payment_method := payment_method
    location := data.location
    date_offset := data.date_offset.getD 0
    confidence := conf3
    raw_response := ai_response }

/-- `AIService._create_error_result`. -/
def create_error_result (original_message ai_response : String) : RawData :=
  { amount := none
    description := take100 original_message
    category := "otros"
    payment_method := "tarjeta"
    location := none
    date_offset := 0
    confidence := 0.1
    raw_response := ai_response }

/-- Classification of an inference response string as seen by
`_parse_ai_response`: the regex scan for a brace-delimited block and the
subsequent `json.loads` partition every response into one of these four
disjoint classes.  `illTyped` covers a decoded JSON object whose
`description`, `category` or `payment_method` value is not a string, on
which the source raises (e.g. `AttributeError` from `.strip()`), an
exception only the caller's handler catches. -/
inductive RespShape
  | noJson
  | badJson
  | illTyped (e : String)
  | jsonObj (d : RawJson)
deriving DecidableEq

/-- A non-null inference response: the raw text plus its shape. -/
structure AiResp where
  raw : String
  shape : RespShape
deriving DecidableEq

/-- `AIService._parse_ai_response`: no JSON block or a JSON decode error
yields the error result (confidence 0.1); an ill-typed object raises; a
well-typed object is validated and normalized. -/
def parse_ai_response (resp : AiResp) (original_message : String) : Except String RawData :=
  match resp.shape with
  | .noJson => .ok (create_error_result original_message resp.raw)
  | .badJson => .ok (create_error_result original_message resp.raw)
  | .illTyped e => .error e
  | .jsonObj d => .ok (validate_and_normalize d original_message resp.raw)

/-! ## `_call_ollama_with_retry` -/

/-- Outcome of one `_call_ollama` attempt.  `failed` is a `None` return
(transport error, non-200 status, or a too-short response); the two
`raised` constructors model an exception escaping the attempt, which the
retry loop catches (`asyncio.TimeoutError` separately only for
metrics). -/
inductive AttemptOutcome
  | ok (r : AiResp)
  | failed
  | raisedTimeout
  | raisedOther (e : String)

/-- Whether an attempt produced a (non-null, hence truthy) response. -/
def AttemptOutcome.isOk : AttemptOutcome → Bool
  | .ok _ => true
  | _ => false

/-- Observable behaviour of one run of the retry loop: the returned
response, the number of single-attempt calls made, and the total time
spent in backoff sleeps. -/
structure RetryTrace where
  response : Option AiResp
  calls : ℕ
  totalSleep : ℚ
deriving DecidableEq

/-- `self.max_retries = 2`. -/
def max_retries : ℕ := 2

/-- `self.base_delay = 2.0`. -/
def base_delay : ℚ := 2

/-- The body of `for attempt in range(self.max_retries)`: on a truthy
response return immediately; otherwise (None return or caught exception)
sleep `base_delay * 2 ** attempt` unless this is the final attempt, and
continue.  `fuel` is the number of loop iterations left. -/
def retryGo (outcomes : ℕ → AttemptOutcome) (attempt fuel : ℕ) : RetryTrace :=
  match fuel with
  | 0 => ⟨none, 0, 0⟩
  | fuel + 1 =>
    match outcomes attempt with
    | .ok r => ⟨some r, 1, 0⟩
    | _ =>
      let d := if attempt < max_retries - 1 then base_delay * 2 ^ attempt else 0
      let rest := retryGo outcomes (attempt + 1) fuel
      ⟨rest.response, rest.calls + 1, d + rest.totalSleep⟩

/-- `AIService._call_ollama_with_retry`, as a function of the per-attempt
outcomes; returns `None` after exhausting all attempts. -/
def call_ollama_with_retry (outcomes : ℕ → AttemptOutcome) : RetryTrace :=
  retryGo outcomes 0 max_retries

/-! ## The response cache -/

/-- One entry of `self._response_cache`: a key mapped to
`(parsed_data, timestamp)`.  The key type is abstract (the source uses an
MD5 hex digest of the normalized message). -/
structure CacheEntry (α : Type) where
  key : α
  data : RawData
  timestamp : ℚ
deriving DecidableEq

/-- The cache dict, as an insertion-ordered association list. -/
abbrev Cache (α : Type) := List (CacheEntry α)

/-- `self.cache_ttl = 3600`. -/
def cache_ttl : ℚ := 3600

/-- `AIService._get_cached_response`: a hit exactly when the key is
present and `now - timestamp < cache_ttl`; an entry that is present but
too old is deleted and reported as a miss.  Returns the result together
with the cache state after the call. -/
def get_cached_response {α : Type} [DecidableEq α] (cache : Cache α) (key : α) (now : ℚ) :
    Option RawData × Cache α :=
  match cache.find? (fun e => decide (e.key = key)) with
  | some e =>
    if now - e.timestamp < cache_ttl then (some e.data, cache)
    else (none, cache.filter (fun x => decide (x.key ≠ key)))
  | none => (none, cache)

/-- Python dict assignment `d[key] = value`: replace in place when the
key is present, else append. -/
def dictInsert {α : Type} [DecidableEq α] (cache : Cache α) (key : α) (data : RawData) (ts : ℚ) :
    Cache α :=
  if cache.any (fun e => decide (e.key = key)) then
    cache.map (fun e => if e.key = key then ⟨key, data, ts⟩ else e)
  else cache ++ [⟨key, data, ts⟩]

/-- The expiry sweep of `_cleanup_cache`: keep exactly the entries with
`now - timestamp < cache_ttl` (the source deletes those with
`now - timestamp >= cache_ttl`). -/
def purgedStore {α : Type} (cache : Cache α) (now : ℚ) : Cache α :=
  cache.filter (fun e => decide (now - e.timestamp < cache_ttl))

/-- Comparison by insertion timestamp, the sort key of `_cleanup_cache`. -/
def entryLe {α : Type} (a b : CacheEntry α) : Bool := decide (a.timestamp ≤ b.timestamp)

/-- `AIService._cleanup_cache`: drop expired entries; then, only if more
than 1000 entries remain, keep the newest 800 by timestamp (Python's
stable `sorted` ascending by timestamp followed by `[-800:]`). -/
def cleanup_cache {α : Type} (cache : Cache α) (now : ℚ) : Cache α :=
  let p := purgedStore cache now
  if 1000 < p.length then (p.mergeSort entryLe).drop (p.length - 800) else p

/-- `AIService._cache_response`: store only when the amount is truthy and
the confidence exceeds 0.6, then run the cleanup; otherwise leave the
cache untouched. -/
def cache_response {α : Type} [DecidableEq α] (cache : Cache α) (key : α) (parsed_data : RawData)
    (now : ℚ) : Cache α :=
  if numTruthy parsed_data.amount && decide (0.6 < parsed_data.confidence) then
    cleanup_cache (dictInsert cache key parsed_data now) now
  else cache

/-- The invariant of accepted cache entries: a positive amount and a
confidence strictly above 0.6. -/
def goodEntry {α : Type} (e : CacheEntry α) : Prop :=
  (∃ a, e.data.amount = some a ∧ 0 < a) ∧ 0.6 < e.data.confidence

/-! ## `parse_financial_message`, the interpretation facade -/

/-- `message.strip().lower()`. -/
def normalize_message (m : String) : String := String.mk ((stripChars m.toList).map Char.toLower)

/-- The ambient behaviour of one facade call: the outcome of each
inference attempt and the wall-clock time (the source samples
`datetime.now()` during the call; a single instant is used here). -/
structure Env where
  outcomes : ℕ → AttemptOutcome
  now : ℚ

/-- The body of the `try:` block of `parse_financial_message`, threading
the cache state and propagating the one internal exception source
(`_parse_ai_response` on an ill-typed object).  An `Except.error` carries
the exception message and the cache state at the raise point.  `fp`
abstracts `_get_cache_key` (MD5 fingerprinting of the normalized
message).  Metrics recording is observationally irrelevant here and is
omitted. -/
def parse_body {α : Type} [DecidableEq α] (fp : String → α) (env : Env) (message : String)
    (cache : Cache α) : Except (String × Cache α) (AIParsingResult × Cache α) :=
  let key := fp (normalize_message message)
  let looked := get_cached_response cache key env.now
  match looked.1 with
  | some d => .ok (AIParsingResult.ofData d, looked.2)
  | none =>
    match (call_ollama_with_retry env.outcomes).response with
    | some resp =>
      match parse_ai_response resp message with
      | .error e => .error (e, looked.2)
      | .ok parsed =>
        let result := AIParsingResult.ofData parsed
        if result.success && decide (0.6 < result.confidence) then
          .ok (result, cache_response looked.2 key parsed env.now)
        else
          .ok (fallback_regex_parsing message, looked.2)
    | none => .ok (fallback_regex_parsing message, looked.2)

/-- `AIService.parse_financial_message`: the body wrapped in the
`try/except Exception` that converts any internal failure into the regex
fallback path.  Always returns a result record and the final cache
state. -/
def parse_financial_message {α : Type} [DecidableEq α] (fp : String → α) (env : Env)
    (message : String) (cache : Cache α) : AIParsingResult × Cache α :=
  match parse_body fp env message cache with
  | .ok x => x
  | .error p => (fallback_regex_parsing message, p.2)

/-! ## `metrics_service.py`: AIMetrics and health classification -/

/-- The counters of the `AIMetrics` dataclass. -/
structure AIMetrics where
  total_requests : ℕ
  successful_requests : ℕ
  failed_requests : ℕ
  timeout_requests : ℕ
  cache_hits : ℕ
  cache_misses : ℕ
  total_latency : ℚ
  total_confidence : ℚ
  low_confidence_count : ℕ
  fallback_count : ℕ
deriving DecidableEq

/-- The zeroed `AIMetrics()` a reset produces. -/
def AIMetrics.init : AIMetrics :=
  { total_requests := 0, successful_requests := 0, failed_requests := 0,
    timeout_requests := 0, cache_hits := 0, cache_misses := 0,
    total_latency := 0, total_confidence := 0,
    low_confidence_count := 0, fallback_count := 0 }

/-- `AIMetrics.success_rate` (a percentage, 0 when no requests). -/
def success_rate (m : AIMetrics) : ℚ :=
  if m.total_requests = 0 then 0
  else ((m.successful_requests : ℚ) / (m.total_requests : ℚ)) * 100

/-- `AIMetrics.timeout_rate` (a percentage, 0 when no requests). -/
def timeout_rate (m : AIMetrics) : ℚ :=
  if m.total_requests = 0 then 0
  else ((m.timeout_requests : ℚ) / (m.total_requests : ℚ)) * 100

/-- `AIMetrics.average_latency` (0 when no successful requests). -/
def average_latency (m : AIMetrics) : ℚ :=
  if m.successful_requests = 0 then 0
  else m.total_latency / (m.successful_requests : ℚ)

/-- The health classification of `MetricsService.get_health_status`:
starting from "healthy", and only when more than 10 requests have been
recorded, sequentially overwrite the status for each threshold that
fires, in the source's order (timeout rate, then success rate, then
average latency); the last write wins. -/
def get_health_status (m : AIMetrics) : String :=
  if 10 < m.total_requests then
    let s1 := if 30 < timeout_rate m then "degraded" else "healthy"
    let s2 := if success_rate m < 70 then "unhealthy" else s1
    if 30 < average_latency m then "degraded" else s2
  else "healthy"

/-- `MetricsService.check_reset`, which `get_health_status` runs first:
zero the metrics when the one-hour window has elapsed.  The thresholds
are then evaluated on the (possibly reset) metrics. -/
def check_reset (m : AIMetrics) (now last_reset : ℚ) : AIMetrics :=
  if 3600 < now - last_reset then AIMetrics.init else m

/-! ## `ocr_queue.py`: the `process_receipt_task` Celery worker -/

/-- The `financial_data` dictionary inside an OCR result. -/
structure FinData where
  amount : Option ℚ
  description : Option String
  category : Option String
  payment_method : Option String
  establishment : Option String
  confidence : Option ℚ
  date : Option String
deriving DecidableEq

/-- The dictionary returned by `OCRService.process_receipt_image` (that
method catches its own exceptions, so it always returns; `success` is
`False` when no text could be extracted from the image or an internal
error occurred). -/
structure OcrResult where
  success : Bool
  error : Option String
  extracted_text : String
  financial_data : FinData
  receipt_metadata : String
  confidence : ℚ
deriving DecidableEq

/-- Ambient behaviour of one task run: the set of existing files, the
outcome of the recognition step, and the outcome of
`TransactionService.create_transaction` (`.error` models it raising). -/
structure TaskEnv where
  fs : List String
  ocr : OcrResult
  txn : Except String ℕ

/-- The observable slice of the dictionary `process_receipt_task`
returns. -/
structure TaskResult where
  success : Bool
  error : Option String
  transaction_created : Option Bool
  transaction_id : Option ℕ
deriving DecidableEq

/-- `process_receipt_task`: check the file exists (else the raised
`FileNotFoundError` reaches the outer handler, which removes the file
only if it exists and returns a failure dict); run recognition; **on a
recognition failure return the failure dict immediately, without any
cleanup**; otherwise optionally create a transaction (its exceptions are
caught and recorded in the result), then remove the image file and
return the success dict.  Returns the result together with the file
system left behind.  `os.remove` is modelled as succeeding on an
existing file. -/
def process_receipt_task (env : TaskEnv) (image_path : String) (create_transaction : Bool) :
    TaskResult × List String :=
  if !(env.fs.contains image_path) then
    ({ success := false, error := some "Image file not found",
       transaction_created := none, transaction_id := none }, env.fs)
  else if !env.ocr.success then
    ({ success := false, error := some (env.ocr.error.getD "OCR processing failed"),
       transaction_created := none, transaction_id := none }, env.fs)
  else
    let txnPart :=
      if create_transaction && numTruthy env.ocr.financial_data.amount then
        match env.txn with
        | .ok i => (some true, some i)
        | .error _ => (some false, none)
      else (none, none)
    ({ success := true, error := none,
       transaction_created := txnPart.1, transaction_id := txnPart.2 },
     env.fs.erase image_path)


/-! ## Concrete inputs used by the closed theorems below -/

/-- Attempt outcomes where the first attempt fails and the second
succeeds. -/
def c1OutcomesW : ℕ → AttemptOutcome := fun n =>
  if n = 0 then .failed else .ok ⟨"respuesta json de prueba", .noJson⟩

/-- A representative accepted parse record (positive amount, confidence
0.9). -/
def sampleData : RawData :=
  { amount := some 50000
    description := "almuerzo en restaurante"
    category := "alimentacion"
    payment_method := "tarjeta"
    location := none
    date_offset := 0
    confidence := 0.9
    raw_response := "cached" }

/-- A well-typed inference JSON object whose validated confidence is 0.5,
i.e. a weak result. -/
def c2JsonW : RawJson :=
  { amount := some 5000
    description := some "cafe"
    category := some "alimentacion"
    payment_method := some "tarjeta"
    location := none
    date_offset := some 0
    confidence := some 0.5 }

/-- A non-null inference response carrying the weak object above. -/
def c2RespW : AiResp := ⟨"json crudo", .jsonObj c2JsonW⟩

/-- Environment in which every inference attempt returns the weak
response. -/
def c2EnvW : Env := { outcomes := fun _ => .ok c2RespW, now := 0 }

/-- A non-null inference response whose JSON object is ill-typed, so
parsing it raises. -/
def c3RespW : AiResp := ⟨"objeto con campos mal tipados", .illTyped "AttributeError"⟩

/-- Environment in which every inference attempt returns the ill-typed
response. -/
def c3EnvW : Env := { outcomes := fun _ => .ok c3RespW, now := 0 }

/-- A JSON object with a positive amount but an unknown category and an
unknown payment method. -/
def c8JsonW : RawJson :=
  { amount := some 12000
    description := some "paseo"
    category := some "categoria desconocida"
    payment_method := some "bono"
    location := none
    date_offset := some 0
    confidence := some 0.9 }

/-- A 1000-entry cache holding one entry (key 0) whose age at time 7200
is exactly the TTL, and 999 fresh entries. -/
def c6cache : Cache ℕ :=
  (List.range 1000).map (fun i => ⟨i, sampleData, 3600 + (i : ℚ)⟩)

/-- A 1001-entry cache of entirely fresh entries at time 7200. -/
def c6cacheW : Cache ℕ :=
  (List.range 1001).map (fun i => ⟨i, sampleData, 7000 + (i : ℚ)⟩)

/-- A metrics window with 11 requests, one success with 400s total
latency: success rate about 9% and average latency 400s. -/
def c9m : AIMetrics :=
  { total_requests := 11
    successful_requests := 1
    failed_requests := 10
    timeout_requests := 0
    cache_hits := 0
    cache_misses := 11
    total_latency := 400
    total_confidence := 0.5
    low_confidence_count := 0
    fallback_count := 10 }

/-- An empty `financial_data` dictionary. -/
def c4FinNone : FinData :=
  { amount := none, description := none, category := none,
    payment_method := none, establishment := none, confidence := none, date := none }

/-- A recognition result reporting failure (no text could be
extracted). -/
def c4OcrFail : OcrResult :=
  { success := false
    error := some "No se pudo extraer texto de la imagen"
    extracted_text := ""
    financial_data := c4FinNone
    receipt_metadata := ""
    confidence := 0 }

/-- A successful recognition result with an extracted amount. -/
def c4OcrOk : OcrResult :=
  { success := true
    error := none
    extracted_text := "TOTAL 50000"
    financial_data :=
      { amount := some 50000, description := some "Compra", category := some "otros",
        payment_method := none, establishment := none, confidence := some 0.8, date := none }
    receipt_metadata := ""
    confidence := 0.8 }

/-- Task environment: the image exists and recognition fails. -/
def c4EnvFail : TaskEnv := { fs := ["tmp_receipt.jpg"], ocr := c4OcrFail, txn := .ok 1 }

/-- Task environment: the image exists and recognition succeeds. -/
def c4EnvOk : TaskEnv := { fs := ["tmp_receipt.jpg"], ocr := c4OcrOk, txn := .ok 1 }

/-! ## Helper lemmas -/

theorem posAmount_iff {x : Option ℚ} : posAmount x = true ↔ ∃ a, x = some a ∧ 0 < a := by
  cases x <;> simp [posAmount]

theorem posAmount_numTruthy {x : Option ℚ} (h : posAmount x = true) : numTruthy x = true := by
  rcases posAmount_iff.mp h with ⟨a, rfl, ha⟩
  simp [numTruthy, ne_of_gt ha]

theorem clamp01_nonneg (x : ℚ) : 0 ≤ clamp01 x :=
  le_min (le_max_right x 0) zero_le_one

theorem clamp01_le_one (x : ℚ) : clamp01 x ≤ 1 := min_le_right _ _

theorem floorPenalty_nonneg (x p : ℚ) : 0 ≤ floorPenalty x p := le_max_right _ _

theorem floorPenalty_le_one {x : ℚ} (h : x ≤ 1) (p : ℚ) (hp : 0 ≤ p) :
    floorPenalty x p ≤ 1 :=
  max_le (by linarith) zero_le_one

theorem floorPenalty_zero {x : ℚ} (h : 0 ≤ x) : floorPenalty x 0 = x := by
  simp [floorPenalty]
  exact h

theorem mem_get_cached_snd {α : Type} [DecidableEq α] (cache : Cache α) (key : α) (now : ℚ) :
    ∀ e ∈ (get_cached_response cache key now).2, e ∈ cache := by
  intro e he
  rcases h : cache.find? (fun x => decide (x.key = key)) with _ | en
  · simpa [get_cached_response, h] using he
  · by_cases hf : now - en.timestamp < cache_ttl
    · simpa [get_cached_response, h, hf] using he
    · simp [get_cached_response, h, hf] at he
      exact he.1

theorem mem_cleanup_cache {α : Type} (cache : Cache α) (now : ℚ) :
    ∀ e ∈ cleanup_cache cache now, e ∈ cache := by
  intro e he
  unfold cleanup_cache at he
  by_cases hb : 1000 < (purgedStore cache now).length
  · simp only [hb, if_true] at he
    have h2 := List.mem_mergeSort.mp (List.mem_of_mem_drop he)
    exact (List.mem_filter.mp h2).1
  · simp only [hb, if_false] at he
    exact (List.mem_filter.mp he).1

theorem mem_dictInsert {α : Type} [DecidableEq α] (cache : Cache α) (key : α) (d : RawData)
    (ts : ℚ) : ∀ e ∈ dictInsert cache key d ts, e ∈ cache ∨ e = ⟨key, d, ts⟩ := by
  intro e he
  unfold dictInsert at he
  by_cases hany : cache.any (fun x => decide (x.key = key)) = true
  · simp only [hany, if_true] at he
    rcases List.mem_map.mp he with ⟨x, hx, hxe⟩
    by_cases hk : x.key = key
    · right
      rw [if_pos hk] at hxe
      exact hxe.symm
    · left
      rw [if_neg hk] at hxe
      exact hxe ▸ hx
  · simp only [hany, if_false] at he
    rcases List.mem_append.mp he with h | h
    · exact Or.inl h
    · simp at h
      exact Or.inr h

/-! ## Claim theorems -/

/-- C1: for every prompt, `_call_ollama_with_retry` makes at most
`max_retries = 2` single-attempt calls; it returns the first non-null
response immediately, with no further attempt and no sleep after it; a
failed attempt that is not the final one is followed by a sleep of
`base_delay * 2 ^ attempt` (2s for attempt 0), the final attempt by no
sleep, so exhausting all attempts enforces a total delay of exactly the
sum `base_delay * (2 ^ 0 + ... + 2 ^ (max_retries - 2))`, hence at least
that sum. -/
theorem c1_retry_backoff (outcomes : ℕ → AttemptOutcome) :
    (call_ollama_with_retry outcomes).calls ≤ max_retries
    ∧ (∀ r, outcomes 0 = .ok r →
        call_ollama_with_retry outcomes = ⟨some r, 1, 0⟩)
    ∧ (∀ r, (outcomes 0).isOk = false → outcomes 1 = .ok r →
        call_ollama_with_retry outcomes = ⟨some r, 2, base_delay * 2 ^ 0⟩)
    ∧ ((outcomes 0).isOk = false → (outcomes 1).isOk = false →
        (call_ollama_with_retry outcomes).response = none
        ∧ (call_ollama_with_retry outcomes).calls = max_retries
        ∧ (call_ollama_with_retry outcomes).totalSleep = base_delay * 2 ^ 0
        ∧ base_delay * ∑ i ∈ Finset.range (max_retries - 1), (2 : ℚ) ^ i
            ≤ (call_ollama_with_retry outcomes).totalSleep) := by
  refine ⟨?_, ?_, ?_, ?_⟩
  · rcases h0 : outcomes 0 with r | _ | _ | e <;>
      rcases h1 : outcomes 1 with r1 | _ | _ | e1 <;>
        simp [call_ollama_with_retry, retryGo, h0, h1, max_retries]
  · intro r h0
    simp [call_ollama_with_retry, retryGo, h0]
  · intro r h0 h1
    rcases hc : outcomes 0 with r0 | _ | _ | e0 <;> simp [hc, AttemptOutcome.isOk] at h0 <;>
      simp [call_ollama_with_retry, retryGo, hc, h1, max_retries]
  · intro h0 h1
    rcases hc : outcomes 0 with r0 | _ | _ | e0 <;> simp [hc, AttemptOutcome.isOk] at h0 <;>
      rcases hd : outcomes 1 with r1 | _ | _ | e1 <;> simp [hd, AttemptOutcome.isOk] at h1 <;>
        simp [call_ollama_with_retry, retryGo, hc, hd, max_retries]

theorem c1_retry_backoff_witness :
    call_ollama_with_retry c1OutcomesW =
      ⟨some ⟨"respuesta json de prueba", .noJson⟩, 2, base_delay * 2 ^ 0⟩ :=
  (c1_retry_backoff c1OutcomesW).2.2.1 ⟨"respuesta json de prueba", .noJson⟩ rfl rfl

/-- C7: `_extract_amount_regex` tries its patterns in order — number-k,
number-mil, a bare run of at least four digits, then the generic
number-(mil|k) combinator — and the first match wins; "50k", "50mil" and
"50000" all yield amount 50000 and "50.5k" yields 50500; when no pattern
matches, `None` is returned (the captured groups are always numeric, so
the non-numeric guard of the source never fires). -/
theorem c7_extract_amount_order :
    extract_amount_regex "50k" = some 50000
    ∧ extract_amount_regex "50mil" = some 50000
    ∧ extract_amount_regex "50000" = some 50000
    ∧ extract_amount_regex "50.5k" = some 50500
    ∧ (∀ m g, reSearch matchK (lowerChars m) = some g →
        extract_amount_regex m = some (groupVal g * 1000))
    ∧ (∀ m g, reSearch matchK (lowerChars m) = none →
        reSearch matchMil (lowerChars m) = some g →
        extract_amount_regex m = some (groupVal g * 1000))
    ∧ (∀ m g, reSearch matchK (lowerChars m) = none →
        reSearch matchMil (lowerChars m) = none →
        reSearch matchDigits4 (lowerChars m) = some g →
        extract_amount_regex m = some (groupVal g))
    ∧ (∀ m g, reSearch matchK (lowerChars m) = none →
        reSearch matchMil (lowerChars m) = none →
        reSearch matchDigits4 (lowerChars m) = none →
        reSearch matchMilK (lowerChars m) = some g →
        extract_amount_regex m = some (groupVal g * 1000))
    ∧ (∀ m, reSearch matchK (lowerChars m) = none →
        reSearch matchMil (lowerChars m) = none →
        reSearch matchDigits4 (lowerChars m) = none →
        reSearch matchMilK (lowerChars m) = none →
        extract_amount_regex m = none) := by
  have hd50 : digitsVal ['5', '0'] = 50 := by decide
  have hd5 : digitsVal ['5'] = 5 := by decide
  have hd50000 : digitsVal ['5', '0', '0', '0', '0'] = 50000 := by decide
  have h50 : groupVal ['5', '0'] = 50 := by
    have ht : ['5', '0'].takeWhile (fun c => c != '.') = ['5', '0'] := by decide
    have hw : (['5', '0'].dropWhile (fun c => c != '.')).drop 1 = [] := by decide
    simp [groupVal, ht, hw, hd50, digitsVal]
  have h505 : groupVal ['5', '0', '.', '5'] = 50.5 := by
    have ht : ['5', '0', '.', '5'].takeWhile (fun c => c != '.') = ['5', '0'] := by decide
    have hw : (['5', '0', '.', '5'].dropWhile (fun c => c != '.')).drop 1 = ['5'] := by decide
    simp [groupVal, ht, hw, hd50, hd5]
    norm_num
  have h50000 : groupVal ['5', '0', '0', '0', '0'] = 50000 := by
    have ht : ['5', '0', '0', '0', '0'].takeWhile (fun c => c != '.') = ['5', '0', '0', '0', '0'] := by
      decide
    have hw : (['5', '0', '0', '0', '0'].dropWhile (fun c => c != '.')).drop 1 = [] := by decide
    simp [groupVal, ht, hw, hd50000, digitsVal]
  refine ⟨?_, ?_, ?_, ?_, ?_, ?_, ?_, ?_, ?_⟩
  · have hs : reSearch matchK (lowerChars "50k") = some ['5', '0'] := by decide
    simp [extract_amount_regex, hs, h50]
    norm_num
  · have hk : reSearch matchK (lowerChars "50mil") = none := by decide
    have hs : reSearch matchMil (lowerChars "50mil") = some ['5', '0'] := by decide
    simp [extract_amount_regex, hk, hs, h50]
    norm_num
  · have hk : reSearch matchK (lowerChars "50000") = none := by decide
    have hm : reSearch matchMil (lowerChars "50000") = none := by decide
    have hs : reSearch matchDigits4 (lowerChars "50000") = some ['5', '0', '0', '0', '0'] := by
      decide
    simp [extract_amount_regex, hk, hm, hs, h50000]
  · have hs : reSearch matchK (lowerChars "50.5k") = some ['5', '0', '.', '5'] := by decide
    simp [extract_amount_regex, hs, h505]
    norm_num
  · intro m g h1
    simp [extract_amount_regex, h1]
  · intro m g h1 h2
    simp [extract_amount_regex, h1, h2]
  · intro m g h1 h2 h3
    simp [extract_amount_regex, h1, h2, h3]
  · intro m g h1 h2 h3 h4
    simp [extract_amount_regex, h1, h2, h3, h4]
  · intro m h1 h2 h3 h4
    simp [extract_amount_regex, h1, h2, h3, h4]

theorem c7_extract_amount_order_witness :
    extract_amount_regex "50k" = some (groupVal ['5', '0'] * 1000) :=
  c7_extract_amount_order.2.2.2.2.1 "50k" ['5', '0'] (by decide)

/-- C10 (amended): for every input message, the regex fallback returns a
record with `date_offset = 0` (so relative-date words such as "ayer"
never produce a non-zero offset on this path), no location, description
equal to the first 100 characters of the message, the regex-extracted
amount, and confidence 0.6 exactly when the extracted amount is truthy
(present and non-zero), 0.2 otherwise. -/
theorem c10_fallback_shape (message : String) :
    (fallback_regex_parsing message).date_offset = 0
    ∧ (fallback_regex_parsing message).location = none
    ∧ (fallback_regex_parsing message).description = take100 message
    ∧ (fallback_regex_parsing message).amount = extract_amount_regex message
    ∧ (fallback_regex_parsing message).confidence =
        (if numTruthy (extract_amount_regex message) then 0.6 else 0.2) :=
  ⟨rfl, rfl, rfl, rfl, rfl⟩

/-- C10 (counterexample): on the message "0000" an amount *is* extracted
(the four-digit pattern matches, yielding 0), yet the fallback confidence
is 0.2, not the 0.6 the claim requires for every extracted amount:
Python's truthiness test treats the extracted 0.0 as no amount. -/
theorem c10_counterexample :
    extract_amount_regex "0000" = some 0
    ∧ (fallback_regex_parsing "0000").confidence = 0.2
    ∧ (fallback_regex_parsing "0000").confidence ≠ 0.6 := by
  have hk : reSearch matchK (lowerChars "0000") = none := by decide
  have hm : reSearch matchMil (lowerChars "0000") = none := by decide
  have hs : reSearch matchDigits4 (lowerChars "0000") = some ['0', '0', '0', '0'] := by decide
  have hg : groupVal ['0', '0', '0', '0'] = 0 := by
    have ht : ['0', '0', '0', '0'].takeWhile (fun c => c != '.') = ['0', '0', '0', '0'] := by
      decide
    have hw : (['0', '0', '0', '0'].dropWhile (fun c => c != '.')).drop 1 = [] := by decide
    simp [groupVal, ht, hw, digitsVal]
  have hex : extract_amount_regex "0000" = some 0 := by
    simp [extract_amount_regex, hk, hm, hs, hg]
  refine ⟨hex, ?_, ?_⟩
  · simp [fallback_regex_parsing, fallbackData, AIParsingResult.ofData, hex, numTruthy]
  · simp [fallback_regex_parsing, fallbackData, AIParsingResult.ofData, hex, numTruthy]
    norm_num

/-- C8: `_validate_and_normalize` clamps the reported confidence into
[0,1]; an amount that is not a positive number is dropped (amount absent)
at a 0.3 confidence penalty while a positive amount is kept; a category
outside the fixed set defaults to "otros" at a 0.2 penalty; a payment
method outside the fixed set defaults to "tarjeta" at a 0.1 penalty;
every penalty floors at 0, and the final confidence is exactly the
clamped confidence with the three penalties applied in order, so it stays
in [0,1]. -/
theorem c8_validate_normalize (d : RawJson) (msg raw : String) :
    0 ≤ (validate_and_normalize d msg raw).confidence
    ∧ (validate_and_normalize d msg raw).confidence ≤ 1
    ∧ (∀ a, d.amount = some a → 0 < a → (validate_and_normalize d msg raw).amount = some a)
    ∧ (posAmount d.amount = false → (validate_and_normalize d msg raw).amount = none)
    ∧ (lowerStr (d.category.getD "") ∈ valid_categories →
        (validate_and_normalize d msg raw).category = lowerStr (d.category.getD ""))
    ∧ (lowerStr (d.category.getD "") ∉ valid_categories →
        (validate_and_normalize d msg raw).category = "otros")
    ∧ (lowerStr (d.payment_method.getD "") ∈ valid_methods →
        (validate_and_normalize d msg raw).payment_method = lowerStr (d.payment_method.getD ""))
    ∧ (lowerStr (d.payment_method.getD "") ∉ valid_methods →
        (validate_and_normalize d msg raw).payment_method = "tarjeta")
    ∧ (validate_and_normalize d msg raw).confidence =
        floorPenalty (floorPenalty (floorPenalty (clamp01 (d.confidence.getD 0))
          (if posAmount d.amount then 0 else 0.3))
          (if lowerStr (d.category.getD "") ∈ valid_categories then 0 else 0.2))
          (if lowerStr (d.payment_method.getD "") ∈ valid_methods then 0 else 0.1) := by
  have h0 := clamp01_nonneg (d.confidence.getD 0)
  have h1 := clamp01_le_one (d.confidence.getD 0)
  have hconf : (validate_and_normalize d msg raw).confidence =
      floorPenalty (floorPenalty (floorPenalty (clamp01 (d.confidence.getD 0))
        (if posAmount d.amount then 0 else 0.3))
        (if lowerStr (d.category.getD "") ∈ valid_categories then 0 else 0.2))
        (if lowerStr (d.payment_method.getD "") ∈ valid_methods then 0 else 0.1) := by
    rcases hb1 : posAmount d.amount <;>
      by_cases hb2 : lowerStr (d.category.getD "") ∈ valid_categories <;>
        by_cases hb3 : lowerStr (d.payment_method.getD "") ∈ valid_methods <;>
          simp [validate_and_normalize, hb1, hb2, hb3, floorPenalty_zero, h0,
            floorPenalty_nonneg]
  have hp1 : (0 : ℚ) ≤ (if posAmount d.amount then 0 else 0.3) := by
    split <;> norm_num
  have hp2 : (0 : ℚ) ≤ (if lowerStr (d.category.getD "") ∈ valid_categories then 0 else 0.2) := by
    split <;> norm_num
  have hp3 : (0 : ℚ) ≤ (if lowerStr (d.payment_method.getD "") ∈ valid_methods then 0 else 0.1) := by
    split <;> norm_num
  refine ⟨?_, ?_, ?_, ?_, ?_, ?_, ?_, ?_, hconf⟩
  · rw [hconf]
    exact floorPenalty_nonneg _ _
  · rw [hconf]
    exact floorPenalty_le_one (floorPenalty_le_one (floorPenalty_le_one h1 _ hp1) _ hp2) _ hp3
  · intro a hs hpos
    simp [validate_and_normalize, hs, hpos]
  · intro ha
    rcases ham : d.amount with _ | a
    · simp [validate_and_normalize, ham]
    · have hnp : ¬ 0 < a := by simpa [posAmount, ham] using ha
      simp [validate_and_normalize, ham, hnp]
  · intro h
    simp [validate_and_normalize, h]
  · intro h
    simp [validate_and_normalize, h]
  · intro h
    simp [validate_and_normalize, h]
  · intro h
    simp [validate_and_normalize, h]

theorem c8_validate_normalize_witness :
    (validate_and_normalize c8JsonW "taxi 12000" "respuesta cruda").category = "otros" :=
  (c8_validate_normalize c8JsonW "taxi 12000" "respuesta cruda").2.2.2.2.2.1 (by decide)

/-- C9 (amended): `get_health_status` evaluates its thresholds only once
more than 10 requests have been recorded (otherwise "healthy"), and the
threshold checks overwrite the status sequentially, so the final status
is "degraded" when average latency exceeds 30s, else "unhealthy" when the
success rate is below 70%, else "degraded" when the timeout rate exceeds
30%, else "healthy"; in particular success rate < 70% yields "unhealthy"
only when the average latency is at most 30s. -/
theorem c9_health_thresholds (m : AIMetrics) :
    (m.total_requests ≤ 10 → get_health_status m = "healthy")
    ∧ (10 < m.total_requests →
        get_health_status m =
          if 30 < average_latency m then "degraded"
          else if success_rate m < 70 then "unhealthy"
          else if 30 < timeout_rate m then "degraded"
          else "healthy")
    ∧ (10 < m.total_requests → success_rate m < 70 → average_latency m ≤ 30 →
        get_health_status m = "unhealthy") := by
  refine ⟨?_, ?_, ?_⟩
  · intro h
    simp [get_health_status, Nat.not_lt.2 h]
  · intro h
    simp only [get_health_status, h, if_true]
  · intro h hs hl
    simp [get_health_status, h, hs, not_lt.2 hl]

theorem c9_health_thresholds_witness :
    get_health_status c9m =
      (if 30 < average_latency c9m then "degraded"
       else if success_rate c9m < 70 then "unhealthy"
       else if 30 < timeout_rate c9m then "degraded"
       else "healthy") :=
  (c9_health_thresholds c9m).2.1 (by decide)

/-- C9 (counterexample): a metrics state with 11 requests, success rate
about 9% (far below 70%) and average latency 400s is classified
"degraded", not "unhealthy": the later latency check overwrites the
"unhealthy" status, so the claim that success rate < 70% always implies
"unhealthy" fails. -/
theorem c9_counterexample :
    10 < c9m.total_requests
    ∧ success_rate c9m < 70
    ∧ get_health_status c9m = "degraded"
    ∧ get_health_status c9m ≠ "unhealthy" := by
  have htot : 10 < c9m.total_requests := by decide
  have hs70 : success_rate c9m < 70 := by norm_num [success_rate, c9m]
  have ht30 : ¬ 30 < timeout_rate c9m := by norm_num [timeout_rate, c9m]
  have hl30 : 30 < average_latency c9m := by norm_num [average_latency, c9m]
  have hst : get_health_status c9m = "degraded" := by
    simp [get_health_status, htot, hs70, ht30, hl30]
  exact ⟨htot, hs70, hst, by rw [hst]; decide⟩

/-- C5 (amended): `_get_cached_response` returns a stored entry exactly
when the entry's age `now - insertedAt` is strictly below the TTL
(3600s); an entry whose age is greater than or equal to the TTL is
treated as a miss and is deleted from the store by that same lookup; a
key that is not present is a miss that leaves the store unchanged. -/
theorem c5_ttl_lookup {α : Type} [DecidableEq α] (cache : Cache α) (key : α) (now : ℚ) :
    (∀ e, cache.find? (fun x => decide (x.key = key)) = some e →
      (now - e.timestamp < cache_ttl →
        get_cached_response cache key now = (some e.data, cache))
      ∧ (cache_ttl ≤ now - e.timestamp →
        get_cached_response cache key now =
          (none, cache.filter (fun x => decide (x.key ≠ key)))
        ∧ ∀ x ∈ (get_cached_response cache key now).2, x.key ≠ key))
    ∧ (cache.find? (fun x => decide (x.key = key)) = none →
        get_cached_response cache key now = (none, cache)) := by
  constructor
  · intro e hfind
    constructor
    · intro hfresh
      simp [get_cached_response, hfind, hfresh]
    · intro hold
      have hmiss : get_cached_response cache key now =
          (none, cache.filter (fun x => decide (x.key ≠ key))) := by
        simp [get_cached_response, hfind, not_lt.2 hold]
      refine ⟨hmiss, ?_⟩
      intro x hx
      rw [hmiss] at hx
      simpa using (List.mem_filter.mp hx).2
  · intro hfind
    simp [get_cached_response, hfind]

theorem c5_ttl_lookup_witness :
    get_cached_response [⟨(0 : ℕ), sampleData, 100⟩] 0 200 =
      (some sampleData, [⟨(0 : ℕ), sampleData, 100⟩]) :=
  ((c5_ttl_lookup [⟨(0 : ℕ), sampleData, 100⟩] 0 200).1 ⟨0, sampleData, 100⟩ rfl).1
    (by norm_num [cache_ttl])

/-- C5 (counterexample): an entry inserted at time 0 and looked up at
time 3600 has age exactly the TTL — an age that has *not exceeded* the
TTL — yet the lookup reports a miss and deletes the entry, because the
source requires `now - timestamp < ttl` strictly. -/
theorem c5_counterexample :
    (3600 : ℚ) - 0 ≤ cache_ttl
    ∧ get_cached_response [⟨(0 : ℕ), sampleData, 0⟩] 0 3600 = (none, []) := by
  with_unfolding_all decide

/-- C6 (amended): on an accepted put, expired entries are purged first,
and only when more than 1000 *unexpired* entries then remain does the cap
fire: exactly 800 entries survive, each of them one of the unexpired
entries, and every purge survivor that was dropped has a timestamp no
newer than every retained entry — i.e. the newest 800 by insertion
timestamp are retained. -/
theorem c6_size_cap {α : Type} [DecidableEq α] (cache : Cache α) (key : α) (d : RawData)
    (now : ℚ)
    (hacc : (numTruthy d.amount && decide ((0.6 : ℚ) < d.confidence)) = true)
    (hbig : 1000 < (purgedStore (dictInsert cache key d now) now).length) :
    (cache_response cache key d now).length = 800
    ∧ (∀ e ∈ cache_response cache key d now,
        e ∈ purgedStore (dictInsert cache key d now) now)
    ∧ (∀ e ∈ purgedStore (dictInsert cache key d now) now,
        e ∉ cache_response cache key d now →
        ∀ e2 ∈ cache_response cache key d now, e.timestamp ≤ e2.timestamp) := by
  have hcr : cache_response cache key d now =
      ((purgedStore (dictInsert cache key d now) now).mergeSort entryLe).drop
        ((purgedStore (dictInsert cache key d now) now).length - 800) := by
    simp [cache_response, hacc, cleanup_cache, hbig]
  have htrans : ∀ a b c : CacheEntry α, entryLe a b → entryLe b c → entryLe a c := by
    intro a b c hab hbc
    simp only [entryLe, decide_eq_true_eq] at hab hbc ⊢
    exact le_trans hab hbc
  have htotal : ∀ a b : CacheEntry α, entryLe a b || entryLe b a := by
    intro a b
    simp only [entryLe, Bool.or_eq_true, decide_eq_true_eq]
    exact le_total a.timestamp b.timestamp
  have hsorted :=
    List.sorted_mergeSort htrans htotal (purgedStore (dictInsert cache key d now) now)
  refine ⟨?_, ?_, ?_⟩
  · rw [hcr, List.length_drop]
    simp only [List.length_mergeSort]
    omega
  · intro e he
    rw [hcr] at he
    exact List.mem_mergeSort.mp (List.mem_of_mem_drop he)
  · intro e heL henot e2 he2
    rw [hcr] at henot he2
    have hmem : e ∈ (purgedStore (dictInsert cache key d now) now).mergeSort entryLe :=
      List.mem_mergeSort.mpr heL
    rw [← List.take_append_drop
        ((purgedStore (dictInsert cache key d now) now).length - 800)
        ((purgedStore (dictInsert cache key d now) now).mergeSort entryLe)] at hmem hsorted
    rcases List.mem_append.mp hmem with htake | hdrop
    · have hcross := (List.pairwise_append.mp hsorted).2.2 e htake e2 he2
      simpa [entryLe] using hcross
    · exact absurd hdrop henot

set_option maxRecDepth 100000 in
theorem c6_size_cap_witness :
    (cache_response c6cacheW 2000 sampleData 7200).length = 800 :=
  (c6_size_cap c6cacheW 2000 sampleData 7200 (by with_unfolding_all decide)
    (by with_unfolding_all decide)).1

set_option maxRecDepth 100000 in
/-- C6 (counterexample): a put onto a 1000-entry store makes it 1001
entries — it exceeds the hard cap — but because one entry is expired the
purge brings it back to 1000, the cap check no longer fires, and 1000
entries (not the claimed newest 800) remain, among them the oldest
unexpired entry (key 1), which is not one of the newest 800. -/
theorem c6_counterexample :
    c6cache.length = 1000
    ∧ (numTruthy sampleData.amount && decide ((0.6 : ℚ) < sampleData.confidence)) = true
    ∧ (dictInsert c6cache 1000 sampleData 7200).length = 1001
    ∧ (cache_response c6cache 1000 sampleData 7200).length = 1000
    ∧ (cache_response c6cache 1000 sampleData 7200).any (fun e => decide (e.key = 1)) = true := by
  with_unfolding_all decide

/-- C2: a cache put leaves the response cache unchanged unless the record
has a present amount and confidence above 0.6; every entry the facade
ever stores has a positive amount and confidence above 0.6 (the
invariant is preserved by every call); and whenever a non-null inference
response parses to a record with confidence at most 0.6 or without a
positive amount, the facade caches nothing and returns the regex fallback
result, discarding the weak inference result. -/
theorem c2_confidence_gate :
    (∀ {α : Type} [DecidableEq α] (cache : Cache α) (key : α) (d : RawData) (now : ℚ),
      d.amount = none ∨ d.confidence ≤ 0.6 → cache_response cache key d now = cache)
    ∧ (∀ {α : Type} [DecidableEq α] (fp : String → α) (env : Env) (message : String)
        (cache : Cache α),
        (∀ e ∈ cache, goodEntry e) →
        ∀ e ∈ (parse_financial_message fp env message cache).2, goodEntry e)
    ∧ (∀ {α : Type} [DecidableEq α] (fp : String → α) (env : Env) (message : String)
        (cache : Cache α) (resp : AiResp) (parsed : RawData),
        (get_cached_response cache (fp (normalize_message message)) env.now).1 = none →
        (call_ollama_with_retry env.outcomes).response = some resp →
        parse_ai_response resp message = Except.ok parsed →
        (parsed.confidence ≤ 0.6 ∨ posAmount parsed.amount = false) →
        parse_financial_message fp env message cache =
          (fallback_regex_parsing message,
            (get_cached_response cache (fp (normalize_message message)) env.now).2)) := by
  refine ⟨?_, ?_, ?_⟩
  · intro α _ cache key d now h
    rcases h with h | h
    · simp [cache_response, numTruthy, h]
    · have hc : decide ((0.6 : ℚ) < d.confidence) = false := decide_eq_false (not_lt.2 h)
      simp [cache_response, hc]
  · intro α _ fp env message cache hgood e he
    have hsub : ∀ x ∈ (get_cached_response cache (fp (normalize_message message)) env.now).2,
        goodEntry x :=
      fun x hx => hgood x (mem_get_cached_snd _ _ _ x hx)
    rcases h1 : (get_cached_response cache (fp (normalize_message message)) env.now).1
      with _ | dd
    · rcases h2 : (call_ollama_with_retry env.outcomes).response with _ | resp
      · simp only [parse_financial_message, parse_body, h1, h2] at he
        exact hsub e he
      · rcases h3 : parse_ai_response resp message with e3 | parsed
        · simp only [parse_financial_message, parse_body, h1, h2, h3] at he
          exact hsub e he
        · rcases h4 : ((AIParsingResult.ofData parsed).success
              && decide ((0.6 : ℚ) < (AIParsingResult.ofData parsed).confidence)) with _ | _
          · simp only [parse_financial_message, parse_body, h1, h2, h3, h4,
              Bool.false_eq_true, if_false] at he
            exact hsub e he
          · have hand : (AIParsingResult.ofData parsed).success = true
                ∧ decide ((0.6 : ℚ) < (AIParsingResult.ofData parsed).confidence) = true := by
              simpa [Bool.and_eq_true] using h4
            have hs' : posAmount parsed.amount = true := hand.1
            have hc' : decide ((0.6 : ℚ) < parsed.confidence) = true := hand.2
            have hg : (numTruthy parsed.amount
                && decide ((0.6 : ℚ) < parsed.confidence)) = true := by
              simp [posAmount_numTruthy hs', hc']
            simp only [parse_financial_message, parse_body, h1, h2, h3, h4, if_true] at he
            simp only [cache_response, hg, if_true] at he
            have hmem := mem_cleanup_cache _ _ e he
            rcases mem_dictInsert _ _ _ _ e hmem with hin | heq
            · exact hsub e hin
            · subst heq
              exact ⟨posAmount_iff.mp hs', of_decide_eq_true hc'⟩
    · simp only [parse_financial_message, parse_body, h1] at he
      exact hsub e he
  · intro α _ fp env message cache resp parsed h1 h2 h3 hweak
    have h4 : ((AIParsingResult.ofData parsed).success
        && decide ((0.6 : ℚ) < (AIParsingResult.ofData parsed).confidence)) = false := by
      rcases hweak with h | h
      · have hc : decide ((0.6 : ℚ) < parsed.confidence) = false :=
          decide_eq_false (not_lt.2 h)
        simp [AIParsingResult.ofData, hc]
      · simp [AIParsingResult.ofData, h]
    simp only [parse_financial_message, parse_body, h1, h2, h3, h4, Bool.false_eq_true,
      if_false]

theorem c2_confidence_gate_witness :
    parse_financial_message (fun s : String => s) c2EnvW "cafe 5000" ([] : Cache String) =
      (fallback_regex_parsing "cafe 5000",
        (get_cached_response ([] : Cache String)
          ((fun s : String => s) (normalize_message "cafe 5000")) c2EnvW.now).2) :=
  c2_confidence_gate.2.2 (fun s => s) c2EnvW "cafe 5000" [] c2RespW
    (validate_and_normalize c2JsonW "cafe 5000" "json crudo") rfl rfl rfl
    (Or.inl (by with_unfolding_all decide))

/-- C3: the interpretation facade never raises — it always returns a
constructed result record together with a cache state; any exception the
body raises is caught and converted to the regex fallback; exhausted
inference attempts (transport failures) produce the fallback; and a
malformed response (no JSON block, or a JSON decode error) also falls
back, since its error record cannot pass the confidence gate. -/
theorem c3_facade_never_raises {α : Type} [DecidableEq α] (fp : String → α) (env : Env)
    (message : String) (cache : Cache α) :
    (∃ d st, parse_financial_message fp env message cache = (AIParsingResult.ofData d, st))
    ∧ (∀ e st, parse_body fp env message cache = Except.error (e, st) →
        parse_financial_message fp env message cache = (fallback_regex_parsing message, st))
    ∧ ((get_cached_response cache (fp (normalize_message message)) env.now).1 = none →
        (call_ollama_with_retry env.outcomes).response = none →
        parse_financial_message fp env message cache =
          (fallback_regex_parsing message,
            (get_cached_response cache (fp (normalize_message message)) env.now).2))
    ∧ (∀ resp, (get_cached_response cache (fp (normalize_message message)) env.now).1 = none →
        (call_ollama_with_retry env.outcomes).response = some resp →
        (resp.shape = RespShape.noJson ∨ resp.shape = RespShape.badJson) →
        parse_financial_message fp env message cache =
          (fallback_regex_parsing message,
            (get_cached_response cache (fp (normalize_message message)) env.now).2)) := by
  refine ⟨?_, ?_, ?_, ?_⟩
  · rcases h1 : (get_cached_response cache (fp (normalize_message message)) env.now).1
      with _ | dd
    · rcases h2 : (call_ollama_with_retry env.outcomes).response with _ | resp
      · refine ⟨fallbackData message,
          (get_cached_response cache (fp (normalize_message message)) env.now).2, ?_⟩
        simp only [parse_financial_message, parse_body, h1, h2, fallback_regex_parsing]
      · rcases h3 : parse_ai_response resp message with e3 | parsed
        · refine ⟨fallbackData message,
            (get_cached_response cache (fp (normalize_message message)) env.now).2, ?_⟩
          simp only [parse_financial_message, parse_body, h1, h2, h3, fallback_regex_parsing]
        · rcases h4 : ((AIParsingResult.ofData parsed).success
              && decide ((0.6 : ℚ) < (AIParsingResult.ofData parsed).confidence)) with _ | _
          · refine ⟨fallbackData message,
              (get_cached_response cache (fp (normalize_message message)) env.now).2, ?_⟩
            simp only [parse_financial_message, parse_body, h1, h2, h3, h4,
              Bool.false_eq_true, if_false, fallback_regex_parsing]
          · refine ⟨parsed,
              cache_response
                (get_cached_response cache (fp (normalize_message message)) env.now).2
                (fp (normalize_message message)) parsed env.now, ?_⟩
            simp only [parse_financial_message, parse_body, h1, h2, h3, h4, if_true]
    · refine ⟨dd, (get_cached_response cache (fp (normalize_message message)) env.now).2, ?_⟩
      simp only [parse_financial_message, parse_body, h1]
  · intro e st herr
    simp only [parse_financial_message, herr]
  · intro h1 h2
    simp only [parse_financial_message, parse_body, h1, h2]
  · intro resp h1 h2 hshape
    have h3 : parse_ai_response resp message =
        Except.ok (create_error_result message resp.raw) := by
      rcases hshape with h | h <;> simp [parse_ai_response, h]
    have h4 : ((AIParsingResult.ofData (create_error_result message resp.raw)).success
        && decide ((0.6 : ℚ) < (AIParsingResult.ofData
          (create_error_result message resp.raw)).confidence)) = false := by
      simp [AIParsingResult.ofData, create_error_result, posAmount]
    simp only [parse_financial_message, parse_body, h1, h2, h3, h4, Bool.false_eq_true,
      if_false]

theorem c3_facade_never_raises_witness :
    parse_financial_message (fun s : String => s) c3EnvW "gaste 20000 en cine"
        ([] : Cache String) =
      (fallback_regex_parsing "gaste 20000 en cine", ([] : Cache String)) :=
  (c3_facade_never_raises (fun s => s) c3EnvW "gaste 20000 en cine" []).2.1
    "AttributeError" [] rfl

/-- C4: evaluation of `process_receipt_task` at a run whose recognition
step reports failure — the temporary image file is *not* removed on that
path (it is still present in the file system afterwards), although the
success path of the very same task does remove it.  This contradicts the
mandatory-cleanup requirement for every failure path. -/
theorem c4_cleanup_missing_on_ocr_failure :
    (process_receipt_task c4EnvFail "tmp_receipt.jpg" true).1.success = false
    ∧ (process_receipt_task c4EnvFail "tmp_receipt.jpg" true).2 = ["tmp_receipt.jpg"]
    ∧ (process_receipt_task c4EnvOk "tmp_receipt.jpg" true).1.success = true
    ∧ (process_receipt_task c4EnvOk "tmp_receipt.jpg" true).2 = [] := by
  with_unfolding_all decide
